import Mathlib

/-
Verification of the SerialBarcodeReaderTools protocol driver.

Shallow embedding of src/serial-reader.py (with the M3Y-W transmit builder of
src/serial-reader-oo-refactor.py embedded alongside for comparison).  Byte
strings are modelled as `List Nat`, each element a byte value; Python slices
become `List.take`/`List.drop`; the `struct.error` path of `parse_rx` (caught
and turned into `(None, b'')`) is the explicit length guard, since
`struct.unpack` of a 4-byte layout fails exactly when fewer than 4 bytes are
available.  Frame-building command methods are modelled as the transmit frame
they hand to `send_and_parse`, and Python exceptions raised before that call
become `Except.error` values.
-/

set_option maxRecDepth 8000
set_option linter.unusedVariables false

-- ------------------------
-- Checksum library (src/serial-reader.py lines 24-61)
-- ------------------------

/-- Inner loop body of `compute_crc16_xmodem` for one input byte: for each bit
from 7 down to 0, double the accumulator, conditionally XOR 0x11021 when bit 16
is set, conditionally XOR 0x1021 when the data bit is set.  `List.range 8`
with bit index `7 - i` walks the bits most-significant first, as
`range(7, -1, -1)` does. -/
def crc16_step (crc : Nat) (byte : Nat) : Nat :=
  (List.range 8).foldl (fun c i =>
    let c := c * 2
    let c := if c &&& 0x10000 ≠ 0 then c ^^^ 0x11021 else c
    if byte &&& (1 <<< (7 - i)) ≠ 0 then c ^^^ 0x1021 else c) crc

/-- Embeds `compute_crc16_xmodem`: fold `crc16_step` over the data starting
from 0, mask to 16 bits, return the two big-endian bytes
(`to_bytes(2, byteorder='big')`). -/
def compute_crc16_xmodem (data : List Nat) : List Nat :=
  let crc := (data.foldl crc16_step 0) &&& 0xFFFF
  [crc / 256, crc % 256]

/-- Embeds `check_crc16_xmodem`: inputs shorter than 3 bytes fail; otherwise
split off the last two bytes (`data_with_crc[:-2]` / `data_with_crc[-2:]`),
recompute and compare. -/
def check_crc16_xmodem (data_with_crc : List Nat) : Bool :=
  if data_with_crc.length < 3 then false
  else
    let data := data_with_crc.take (data_with_crc.length - 2)
    let received_crc := data_with_crc.drop (data_with_crc.length - 2)
    decide (received_crc = compute_crc16_xmodem data)

/-- Embeds `compute_bcc`: XOR-fold of all bytes starting from 0, returned as a
single byte. -/
def compute_bcc (data : List Nat) : List Nat :=
  [data.foldl (fun bcc byte => bcc ^^^ byte) 0]

/-- Embeds `check_bcc`: inputs shorter than 2 bytes fail; otherwise split off
the last byte, recompute and compare. -/
def check_bcc (data_with_bcc : List Nat) : Bool :=
  if data_with_bcc.length < 2 then false
  else
    let data := data_with_bcc.take (data_with_bcc.length - 1)
    let received_bcc := data_with_bcc.drop (data_with_bcc.length - 1)
    decide (received_bcc = compute_bcc data)

/-- Embeds `set_bit`: `val | (1 << bit)`. -/
def set_bit (val : Nat) (bit : Nat) : Nat := val ||| (1 <<< bit)

/-- Embeds `clear_bit`: `val & ~(1 << bit)`.  On the nonnegative integers the
code applies it to, Python's and-with-complement is exactly `Nat.ldiff`
(the bits of `val` not in the mask). -/
def clear_bit (val : Nat) (bit : Nat) : Nat := Nat.ldiff val (1 <<< bit)

-- ------------------------
-- GM65 dialect (src/serial-reader.py lines 186-366)
-- ------------------------

/-- Embeds `GM65Scanner.tx_header`: bytes 7E 00. -/
def gm65_tx_header : List Nat := [0x7e, 0x00]

/-- Embeds `GM65Scanner.create_tx`: header ++ command ++ value ++
CRC16(command ++ value). -/
def gm65_create_tx (command : List Nat) (value : List Nat) : List Nat :=
  gm65_tx_header ++ command ++ value ++ compute_crc16_xmodem (command ++ value)

/-- Embeds `GM65Scanner.parse_rx`.  `struct.unpack("3sB", data[:4])` raises
`struct.error` (caught, yielding `(None, b'')`) exactly when fewer than 4
bytes are available.  The accepted-header test `header.hex() in
self.header_ok().decode()` compares two strings of equal length 6, i.e. it
holds iff the 3 header bytes are 02 00 00.  `data_len` is the fourth byte;
the checksum spans `data[1 : 4 + data_len + 2]`; on success the payload is
`data[4 : 4 + data_len]` and the leftover is `data[4 + data_len + 2 :]`. -/
def gm65_parse_rx (data : List Nat) : Option (List Nat) × List Nat :=
  if data.length < 4 then (none, [])
  else if data.take 3 = [0x02, 0x00, 0x00] then
    if check_crc16_xmodem ((data.drop 1).take (3 + data.getD 3 0 + 2)) then
      (some ((data.drop 4).take (data.getD 3 0)), data.drop (4 + data.getD 3 0 + 2))
    else (none, [])
  else (none, [])

/-- Opcode of `GM65Scanner.cmd_get_sw_version`: 07 01 00 E2 01. -/
def gm65_cmd_get_sw_version : List Nat := [0x07, 0x01, 0x00, 0xe2, 0x01]

/-- Opcode of `GM65Scanner.cmd_set_settings`: 08 01 00 00. -/
def gm65_settings_opcode : List Nat := [0x08, 0x01, 0x00, 0x00]

/-- Opcode of `GM65Scanner.cmd_set_same_barcode_delay`: 08 01 00 13. -/
def gm65_delay_opcode : List Nat := [0x08, 0x01, 0x00, 0x13]

/-- The settings byte written back by `GM65Scanner.cmd_set_illumination`,
as a function of the fetched settings byte and the mode value: value < 0
clears bit 3 then bit 2; value = 0 sets bit 2 then clears bit 3; value > 0
sets bit 3 then bit 2. -/
def gm65_illumination_settings (settings_int : Nat) (value : Int) : Nat :=
  if value < 0 then clear_bit (clear_bit settings_int 3) 2
  else if value = 0 then clear_bit (set_bit settings_int 2) 3
  else set_bit (set_bit settings_int 3) 2

/-- The `cmd_set_settings` transmit frame produced by
`GM65Scanner.cmd_set_illumination` when the fetched settings byte is
`settings_int`. -/
def gm65_cmd_set_illumination_tx (settings_int : Nat) (value : Int) : List Nat :=
  gm65_create_tx gm65_settings_opcode [gm65_illumination_settings settings_int value]

-- ------------------------
-- M3Y-W dialect (src/serial-reader.py lines 371-490)
-- ------------------------

/-- Embeds `len(command).to_bytes(2, byteorder='big')` for the lengths the
code produces (below 2^16, where Python would raise `OverflowError`). -/
def to_bytes2 (n : Nat) : List Nat := [n / 256, n % 256]

/-- Embeds `M3YWScanner.tx_header`: bytes 5A 00. -/
def m3yw_tx_header : List Nat := [0x5a, 0x00]

/-- Embeds `M3YWScanner.etx_bytes`: byte A5. -/
def m3yw_etx_bytes : List Nat := [0xa5]

/-- Embeds `M3YWScanner.create_tx` of src/serial-reader.py.  The `value`
parameter is accepted but never used (source comment: "Value not used here in
this reader"): the frame is header ++ len16(command) ++ command ++
BCC(len16(command) ++ command) ++ A5. -/
def m3yw_create_tx (command : List Nat) (value : List Nat) : List Nat :=
  let command_len := to_bytes2 command.length
  m3yw_tx_header ++ command_len ++ command
    ++ compute_bcc (command_len ++ command) ++ m3yw_etx_bytes

/-- Embeds `M3YWScanner.create_tx` of src/serial-reader-oo-refactor.py, which
does append `value` and includes it in the checksum input. -/
def m3yw_create_tx_refactor (command : List Nat) (value : List Nat) : List Nat :=
  let command_len := to_bytes2 command.length
  m3yw_tx_header ++ command_len ++ command ++ value
    ++ compute_bcc (command_len ++ command ++ value) ++ m3yw_etx_bytes

/-- Modelled from the spec wire format, for comparison with the source
definitions: TX = 5A 00 ++ len16(opcode) ++ opcode ++ argument ++
BCC(len16(opcode) ++ opcode ++ argument) ++ A5. -/
def m3yw_create_tx_claimed (opcode : List Nat) (argument : List Nat) : List Nat :=
  [0x5a, 0x00] ++ to_bytes2 opcode.length ++ opcode ++ argument
    ++ compute_bcc (to_bytes2 opcode.length ++ opcode ++ argument) ++ [0xa5]

/-- Embeds `M3YWScanner.parse_rx`.  `struct.unpack(">2sH", data[:4])` needs
exactly 4 bytes; the accepted-header test compares two strings of equal
length 4, i.e. it holds iff the 2 header bytes are 5A 01; `data_len` is the
big-endian 16-bit field in bytes 2-3; the checksum spans
`data[4 - 3 : 4 + data_len + 1]`; on success the payload is
`data[4 : 4 + data_len]` and the leftover is `data[4 + data_len + 2 :]`. -/
def m3yw_parse_rx (data : List Nat) : Option (List Nat) × List Nat :=
  if data.length < 4 then (none, [])
  else if data.take 2 = [0x5a, 0x01] then
    if check_bcc ((data.drop 1).take (4 + (data.getD 2 0 * 256 + data.getD 3 0))) then
      (some ((data.drop 4).take (data.getD 2 0 * 256 + data.getD 3 0)),
       data.drop (4 + (data.getD 2 0 * 256 + data.getD 3 0) + 2))
    else (none, [])
  else (none, [])

/-- Opcode of `M3YWScanner.cmd_get_sw_version`: the ASCII bytes of
b'T_OUT_CVER'. -/
def m3yw_cmd_get_sw_version : List Nat :=
  [0x54, 0x5f, 0x4f, 0x55, 0x54, 0x5f, 0x43, 0x56, 0x45, 0x52]

-- ------------------------
-- Well-formed receive frames (wire format of spec section 6)
-- ------------------------

/-- A well-formed GM65 receive frame carrying `payload`: tag 02 00 00, one
length byte, the payload, then the two CRC bytes over the span
`GM65Scanner.parse_rx` verifies (tag bytes 1-2, length byte, payload). -/
def gm65_rx_frame (payload : List Nat) : List Nat :=
  [0x02, 0x00, 0x00, payload.length] ++ payload
    ++ compute_crc16_xmodem ([0x00, 0x00, payload.length] ++ payload)

/-- A well-formed M3Y-W receive frame carrying `payload`: tag 5A 01, two
big-endian length bytes, the payload, the BCC byte over the span
`M3YWScanner.parse_rx` verifies (tag byte 1, length bytes, payload), and the
A5 end marker. -/
def m3yw_rx_frame (payload : List Nat) : List Nat :=
  [0x5a, 0x01, payload.length / 256, payload.length % 256] ++ payload
    ++ compute_bcc ([0x01, payload.length / 256, payload.length % 256] ++ payload)
    ++ [0xa5]

-- ------------------------
-- Same-barcode-delay command (src/serial-reader.py lines 323-329)
-- ------------------------

/-- Python exceptions that `cmd_set_same_barcode_delay` can raise before any
transport write. -/
inductive PyExc where
  | valueError
  | overflowError
deriving DecidableEq

/-- Python `round` on an exact rational value: round half to even. -/
def pyRound (q : ℚ) : ℤ :=
  if q - ⌊q⌋ < 1/2 then ⌊q⌋
  else if 1/2 < q - ⌊q⌋ then ⌊q⌋ + 1
  else if ⌊q⌋ % 2 = 0 then ⌊q⌋ else ⌊q⌋ + 1

/-- Embeds `GM65Scanner.cmd_set_same_barcode_delay` as the transmit frame it
hands to `send_and_parse`, or the Python exception raised before any bytes
are written: `ValueError` for the `value > 12.7` domain check,
`OverflowError` for a `round(value * 10)` outside the range of
`to_bytes(1)`.  The float argument is modelled as an exact rational. -/
def gm65_cmd_set_same_barcode_delay (value : ℚ) : Except PyExc (List Nat) :=
  if value > 127/10 then Except.error PyExc.valueError
  else if 0 ≤ pyRound (value * 10) ∧ pyRound (value * 10) < 256 then
    Except.ok (gm65_create_tx gm65_delay_opcode [set_bit (pyRound (value * 10)).toNat 7])
  else Except.error PyExc.overflowError

-- ------------------------
-- Device detection (src/serial-reader.py lines 173-181 and 495-509)
-- ------------------------

/-- The two wire dialects, in the order `detect_scanner` tries them. -/
inductive Dialect where
  | gm65
  | m3yw
deriving DecidableEq

/-- Embeds `common_baud_rates` (src/serial-reader.py lines 12-19). -/
def common_baud_rates : List Nat := [9600, 14400, 19200, 38400, 57600, 115200]

/-- The get-software-version transmit frame of each dialect, the probe used
by `find_baudrate`. -/
def probe_tx : Dialect → List Nat
  | Dialect.gm65 => gm65_create_tx gm65_cmd_get_sw_version []
  | Dialect.m3yw => m3yw_create_tx m3yw_cmd_get_sw_version []

/-- The receive parser of each dialect. -/
def dialect_parse_rx : Dialect → List Nat → Option (List Nat) × List Nat
  | Dialect.gm65 => gm65_parse_rx
  | Dialect.m3yw => m3yw_parse_rx

/-- Python truthiness of the decoded reply as tested by `if reply:` in
`find_baudrate`: `None` and the empty byte string are falsy. -/
def reply_truthy (reply : Option (List Nat)) : Bool :=
  match reply with
  | none => false
  | some [] => false
  | some (_ :: _) => true

/-- One probe of `find_baudrate` at one baud rate, against a transport
modelled as a response function from (baud rate, written bytes) to read
bytes: write the get-software-version frame, parse the response, succeed iff
the reply is truthy. -/
def probe_ok (resp : Nat → List Nat → List Nat) (d : Dialect) (baud : Nat) : Bool :=
  reply_truthy (dialect_parse_rx d (resp baud (probe_tx d))).1

/-- Embeds `BaseScanner.find_baudrate`: walk `common_baud_rates` in order and
return the first rate whose probe yields a truthy reply, else `None`. -/
def find_baudrate (resp : Nat → List Nat → List Nat) (d : Dialect) : Option Nat :=
  common_baud_rates.find? (probe_ok resp d)

/-- Modelled from the claim's words, for comparison: the first rate whose
get-software-version probe yields a valid decode (a present payload, empty
or not). -/
def find_baudrate_claimed (resp : Nat → List Nat → List Nat) (d : Dialect) : Option Nat :=
  common_baud_rates.find? (fun baud => (dialect_parse_rx d (resp baud (probe_tx d))).1.isSome)

/-- Embeds `detect_scanner`: try GM65 then M3Y-W; the first dialect whose
`find_baudrate` reports a rate wins; otherwise the `RuntimeError` is the
error value. -/
def detect_scanner (resp : Nat → List Nat → List Nat) : Except Unit (Dialect × Nat) :=
  match find_baudrate resp Dialect.gm65 with
  | some baud => Except.ok (Dialect.gm65, baud)
  | none =>
    match find_baudrate resp Dialect.m3yw with
    | some baud => Except.ok (Dialect.m3yw, baud)
    | none => Except.error ()

/-- A transport that answers the GM65 probe with a valid empty-payload frame
at 9600 baud and a valid one-byte-payload frame at 14400 baud. -/
def detection_cx_resp (baud : Nat) (tx : List Nat) : List Nat :=
  if baud = 9600 then gm65_rx_frame []
  else if baud = 14400 then gm65_rx_frame [0x87] else []

/-- A transport that answers the GM65 probe with a valid one-byte-payload
frame at 19200 baud only. -/
def detection_witness_resp (baud : Nat) (tx : List Nat) : List Nat :=
  if baud = 19200 then gm65_rx_frame [0x87] else []

-- ------------------------
-- Helper lemmas
-- ------------------------

/-- The CRC16 result is always exactly two bytes. -/
theorem compute_crc16_xmodem_length (data : List Nat) :
    (compute_crc16_xmodem data).length = 2 := rfl

/-- The BCC result is always exactly one byte. -/
theorem compute_bcc_length (data : List Nat) :
    (compute_bcc data).length = 1 := rfl

/-- Appending the computed CRC to any nonempty data passes verification. -/
theorem check_crc16_xmodem_append (data : List Nat) (h : data ≠ []) :
    check_crc16_xmodem (data ++ compute_crc16_xmodem data) = true := by
  have hpos : 0 < data.length := List.length_pos.mpr h
  have hlen : (data ++ compute_crc16_xmodem data).length = data.length + 2 := by
    rw [List.length_append, compute_crc16_xmodem_length]
  unfold check_crc16_xmodem
  rw [if_neg (by omega)]
  have hsub : (data ++ compute_crc16_xmodem data).length - 2 = data.length := by omega
  simp only [hsub, List.take_left, List.drop_left]
  simp

/-- Appending the computed BCC to any nonempty data passes verification. -/
theorem check_bcc_append (data : List Nat) (h : data ≠ []) :
    check_bcc (data ++ compute_bcc data) = true := by
  have hpos : 0 < data.length := List.length_pos.mpr h
  have hlen : (data ++ compute_bcc data).length = data.length + 1 := by
    rw [List.length_append, compute_bcc_length]
  unfold check_bcc
  rw [if_neg (by omega)]
  have hsub : (data ++ compute_bcc data).length - 1 = data.length := by omega
  simp only [hsub, List.take_left, List.drop_left]
  simp

/-- Bitwise description of `set_bit`. -/
theorem set_bit_testBit (val bit i : Nat) :
    (set_bit val bit).testBit i = (val.testBit i || decide (bit = i)) := by
  simp [set_bit, Nat.testBit_lor, Nat.shiftLeft_eq, Nat.testBit_two_pow]

/-- Bitwise description of `clear_bit`. -/
theorem clear_bit_testBit (val bit i : Nat) :
    (clear_bit val bit).testBit i = (val.testBit i && !decide (bit = i)) := by
  simp [clear_bit, Nat.testBit_ldiff, Nat.shiftLeft_eq, Nat.testBit_two_pow]

/-- Python round of an exact integer is that integer. -/
theorem pyRound_intCast (n : ℤ) : pyRound (n : ℚ) = n := by
  unfold pyRound
  rw [Int.floor_intCast]
  norm_num

/-- Python round of a nonnegative rational is nonnegative. -/
theorem pyRound_nonneg {q : ℚ} (hq : 0 ≤ q) : 0 ≤ pyRound q := by
  have hf : (0 : ℤ) ≤ ⌊q⌋ := Int.floor_nonneg.mpr hq
  unfold pyRound
  split
  · exact hf
  · split
    · omega
    · split <;> omega

/-- Python round of a rational bounded by an integer is bounded by it. -/
theorem pyRound_le {q : ℚ} {n : ℤ} (hq : q ≤ (n : ℚ)) : pyRound q ≤ n := by
  have hf : ⌊q⌋ ≤ n := by
    have := Int.floor_le_floor hq
    simpa using this
  unfold pyRound
  split
  · exact hf
  · have hfrac : (1 : ℚ)/2 ≤ q - ⌊q⌋ := le_of_not_lt (by assumption)
    have hlt : ⌊q⌋ < n := by
      rcases lt_or_eq_of_le hf with h | h
      · exact h
      · exfalso
        rw [h] at hfrac
        have hq2 : ((n : ℚ)) ≤ q - 1/2 := by linarith
        linarith
    split
    · omega
    · split <;> omega

-- ------------------------
-- Claim theorems
-- ------------------------

/-- C2: for every input byte sequence, both dialects' `parse_rx` return
either the failure result `(None, b'')` or a `(payload, leftover)` pair.
The Lean embedding is a total function, mirroring that the only raising
operation on the Python path (`struct.unpack`) is caught; so termination
holds by construction and the result always has one of the two shapes. -/
theorem C2_parse_rx_total (data : List Nat) :
    (gm65_parse_rx data = (none, []) ∨
      ∃ payload leftover, gm65_parse_rx data = (some payload, leftover)) ∧
    (m3yw_parse_rx data = (none, []) ∨
      ∃ payload leftover, m3yw_parse_rx data = (some payload, leftover)) := by
  constructor
  · unfold gm65_parse_rx
    split
    · exact Or.inl rfl
    · split
      · split
        · exact Or.inr ⟨_, _, rfl⟩
        · exact Or.inl rfl
      · exact Or.inl rfl
  · unfold m3yw_parse_rx
    split
    · exact Or.inl rfl
    · split
      · split
        · exact Or.inr ⟨_, _, rfl⟩
        · exact Or.inl rfl
      · exact Or.inl rfl

/-- C5 counterexample: the claim includes the empty sequence, but for
`data = b''` the combined input `data ++ crc16(data)` has length 2, below the
3-byte minimum of `check_crc16_xmodem`, so verification returns false. -/
theorem C5_counterexample :
    check_crc16_xmodem ([] ++ compute_crc16_xmodem []) = false := by decide

/-- C5 (amended): for every nonempty byte sequence `data`,
`check_crc16_xmodem (data ++ compute_crc16_xmodem data)` returns true; the
empty sequence is excluded because the verifier rejects inputs shorter than
3 bytes. -/
theorem C5_crc_verify_roundtrip (data : List Nat) (h : data ≠ []) :
    check_crc16_xmodem (data ++ compute_crc16_xmodem data) = true :=
  check_crc16_xmodem_append data h

/-- C5 witness at `data = [0x31]`. -/
theorem C5_witness :
    check_crc16_xmodem ([0x31] ++ compute_crc16_xmodem [0x31]) = true :=
  C5_crc_verify_roundtrip [0x31] (by decide)

/-- C6: `compute_crc16_xmodem` maps the empty input to the big-endian bytes
of 0x0000 and the standard check input "123456789" (bytes 31..39) to the
XMODEM check value 0x31C3. -/
theorem C6_crc_vectors :
    compute_crc16_xmodem [] = [0x00, 0x00] ∧
    compute_crc16_xmodem [0x31, 0x32, 0x33, 0x34, 0x35, 0x36, 0x37, 0x38, 0x39]
      = [0x31, 0xc3] := by
  constructor
  · decide
  · decide

/-- C8: the GM65 get-software-version command transmits exactly
7E 00 07 01 00 E2 01 followed by the CRC16 of 07 01 00 E2 01, and GM65
`parse_rx` decodes the simulated reply 02 00 00 01 87 followed by the correct
CRC into payload b'\x87' with empty leftover. -/
theorem C8_end_to_end :
    gm65_create_tx gm65_cmd_get_sw_version []
      = [0x7e, 0x00, 0x07, 0x01, 0x00, 0xe2, 0x01]
        ++ compute_crc16_xmodem [0x07, 0x01, 0x00, 0xe2, 0x01] ∧
    gm65_parse_rx
        ([0x02, 0x00, 0x00, 0x01, 0x87] ++ compute_crc16_xmodem [0x00, 0x00, 0x01, 0x87])
      = (some [0x87], []) := by
  constructor
  · decide
  · decide

/-- C10: `compute_bcc` is invariant under any permutation of the input
bytes, because XOR is commutative and associative. -/
theorem C10_bcc_permutation (l1 l2 : List Nat) (h : l1.Perm l2) :
    compute_bcc l1 = compute_bcc l2 := by
  unfold compute_bcc
  letI : RightCommutative (fun bcc byte => bcc ^^^ byte : Nat → Nat → Nat) :=
    ⟨fun b a c => by
      show b ^^^ a ^^^ c = b ^^^ c ^^^ a
      rw [Nat.xor_assoc, Nat.xor_comm a c, ← Nat.xor_assoc]⟩
  rw [h.foldl_eq 0]

/-- C10 witness: a concrete permutation. -/
theorem C10_witness : compute_bcc [1, 2, 3] = compute_bcc [3, 1, 2] :=
  C10_bcc_permutation [1, 2, 3] [3, 1, 2] (by decide)

/-- C3 counterexample: in src/serial-reader.py the M3Y-W transmit frame for a
one-byte argument FF differs from the claimed shape (the FF never appears),
and in fact equals the frame for the empty argument. -/
theorem C3_counterexample :
    m3yw_create_tx m3yw_cmd_get_sw_version [0xff]
      ≠ m3yw_create_tx_claimed m3yw_cmd_get_sw_version [0xff] ∧
    m3yw_create_tx m3yw_cmd_get_sw_version [0xff]
      = m3yw_create_tx m3yw_cmd_get_sw_version [] := by
  constructor
  · decide
  · decide

/-- C3 (amended): the src/serial-reader.py M3Y-W `create_tx` ignores its
argument entirely — the frame is 5A 00 ++ len16(opcode) ++ opcode ++
BCC(len16(opcode) ++ opcode) ++ A5 for every argument — while the
src/serial-reader-oo-refactor.py revision builds exactly the claimed shape
with the argument in the frame and in the checksum input. -/
theorem C3_m3yw_argument :
    (∀ opcode value : List Nat,
      m3yw_create_tx opcode value
        = m3yw_tx_header ++ to_bytes2 opcode.length ++ opcode
            ++ compute_bcc (to_bytes2 opcode.length ++ opcode) ++ m3yw_etx_bytes) ∧
    (∀ opcode value : List Nat,
      m3yw_create_tx_refactor opcode value = m3yw_create_tx_claimed opcode value) :=
  ⟨fun _ _ => rfl, fun _ _ => rfl⟩

/-- C1 counterexample: for the get-software-version entry of each dialect's
command table, decoding the transmit frame does not return the encoded
payload — it fails with `None`, because the transmit header does not match
the receive-accept pattern. -/
theorem C1_counterexample :
    (gm65_parse_rx (gm65_create_tx gm65_cmd_get_sw_version [])).1 = none ∧
    (m3yw_parse_rx (m3yw_create_tx m3yw_cmd_get_sw_version [])).1 = none := by
  constructor
  · decide
  · decide

/-- Decoding a GM65 transmit frame always fails: its first byte 7E is not
the 02 of the receive-accept pattern. -/
theorem gm65_parse_of_create_tx (command value : List Nat) :
    gm65_parse_rx (gm65_create_tx command value) = (none, []) := by
  have hlen : (gm65_create_tx command value).length
      = command.length + value.length + 4 := by
    simp only [gm65_create_tx, gm65_tx_header, List.length_append, List.length_cons,
      List.length_nil, compute_crc16_xmodem_length]
    omega
  have h4 : ¬ (gm65_create_tx command value).length < 4 := by
    rw [hlen]; omega
  have hhdr : ¬ (gm65_create_tx command value).take 3 = [0x02, 0x00, 0x00] := by
    intro hcontra
    have h0 : ((gm65_create_tx command value).take 3).head? = some 0x7e := rfl
    rw [hcontra] at h0
    simp at h0
  unfold gm65_parse_rx
  rw [if_neg h4, if_neg hhdr]

/-- Decoding an M3Y-W transmit frame always fails: its header 5A 00 is not
the receive-accept pattern 5A 01. -/
theorem m3yw_parse_of_create_tx (command value : List Nat) :
    m3yw_parse_rx (m3yw_create_tx command value) = (none, []) := by
  have hlen : (m3yw_create_tx command value).length = command.length + 6 := by
    simp only [m3yw_create_tx, m3yw_tx_header, m3yw_etx_bytes, to_bytes2,
      List.length_append, List.length_cons, List.length_nil, compute_bcc_length]
    omega
  have h4 : ¬ (m3yw_create_tx command value).length < 4 := by
    rw [hlen]; omega
  have hhdr : ¬ (m3yw_create_tx command value).take 2 = [0x5a, 0x01] := by
    have htake : (m3yw_create_tx command value).take 2 = [0x5a, 0x00] := rfl
    rw [htake]
    decide
  unfold m3yw_parse_rx
  rw [if_neg h4, if_neg hhdr]

/-- Decoding a well-formed GM65 receive frame returns its payload with empty
leftover. -/
theorem gm65_parse_of_rx_frame (payload : List Nat) (h : payload.length < 256) :
    gm65_parse_rx (gm65_rx_frame payload) = (some payload, []) := by
  have hlen : (gm65_rx_frame payload).length = payload.length + 6 := by
    simp only [gm65_rx_frame, List.length_append, List.length_cons, List.length_nil,
      compute_crc16_xmodem_length]
    omega
  have h4 : ¬ (gm65_rx_frame payload).length < 4 := by
    rw [hlen]; omega
  have htake3 : (gm65_rx_frame payload).take 3 = [0x02, 0x00, 0x00] := rfl
  have hgetD : (gm65_rx_frame payload).getD 3 0 = payload.length := rfl
  have hdrop1 : (gm65_rx_frame payload).drop 1
      = ([0x00, 0x00, payload.length] ++ payload)
        ++ compute_crc16_xmodem ([0x00, 0x00, payload.length] ++ payload) := by
    rw [List.append_assoc]
    rfl
  have hcheck : check_crc16_xmodem
      (((gm65_rx_frame payload).drop 1).take (3 + payload.length + 2)) = true := by
    rw [hdrop1, List.take_of_length_le (by
      simp only [List.length_append, List.length_cons, List.length_nil,
        compute_crc16_xmodem_length]
      omega)]
    exact check_crc16_xmodem_append _ (by simp)
  have hdrop4 : (gm65_rx_frame payload).drop 4
      = payload ++ compute_crc16_xmodem ([0x00, 0x00, payload.length] ++ payload) := rfl
  have hleft : (gm65_rx_frame payload).drop (4 + payload.length + 2) = [] := by
    apply List.drop_eq_nil_of_le
    rw [hlen]; omega
  unfold gm65_parse_rx
  rw [if_neg h4, if_pos htake3, hgetD, if_pos hcheck, hdrop4, List.take_left, hleft]

/-- Decoding a well-formed M3Y-W receive frame returns its payload with empty
leftover. -/
theorem m3yw_parse_of_rx_frame (payload : List Nat) (h : payload.length < 65536) :
    m3yw_parse_rx (m3yw_rx_frame payload) = (some payload, []) := by
  have hlen : (m3yw_rx_frame payload).length = payload.length + 6 := by
    simp only [m3yw_rx_frame, List.length_append, List.length_cons, List.length_nil,
      compute_bcc_length]
    omega
  have h4 : ¬ (m3yw_rx_frame payload).length < 4 := by
    rw [hlen]; omega
  have htake2 : (m3yw_rx_frame payload).take 2 = [0x5a, 0x01] := rfl
  have hgetD : (m3yw_rx_frame payload).getD 2 0 * 256 + (m3yw_rx_frame payload).getD 3 0
      = payload.length := by
    show payload.length / 256 * 256 + payload.length % 256 = payload.length
    omega
  have hdrop1 : (m3yw_rx_frame payload).drop 1
      = (([0x01, payload.length / 256, payload.length % 256] ++ payload)
          ++ compute_bcc ([0x01, payload.length / 256, payload.length % 256] ++ payload))
        ++ [0xa5] := rfl
  have hcheck : check_bcc
      (((m3yw_rx_frame payload).drop 1).take (4 + payload.length)) = true := by
    rw [hdrop1, List.take_append_of_le_length (by
      simp only [List.length_append, List.length_cons, List.length_nil,
        compute_bcc_length]
      omega)]
    rw [List.take_of_length_le (by
      simp only [List.length_append, List.length_cons, List.length_nil,
        compute_bcc_length]
      omega)]
    exact check_bcc_append _ (by simp)
  have hdrop4 : (m3yw_rx_frame payload).drop 4
      = (payload
          ++ compute_bcc ([0x01, payload.length / 256, payload.length % 256] ++ payload))
        ++ [0xa5] := rfl
  have hleft : (m3yw_rx_frame payload).drop (4 + payload.length + 2) = [] := by
    apply List.drop_eq_nil_of_le
    rw [hlen]; omega
  unfold m3yw_parse_rx
  rw [if_neg h4, if_pos htake2, hgetD, if_pos hcheck, hdrop4, List.append_assoc,
    List.take_left, hleft]

/-- C1 (amended): decoding a dialect's own transmit frame always fails with
`(None, b'')` for every (opcode, arg) — the transmit header (7E 00 / 5A 00)
never matches that dialect's receive-accept pattern (02 00 00 / 5A 01) — so
the round-trip does not hold as claimed; it holds instead for receive-framed
payloads: wrapping any payload of frame-representable length in the
dialect's well-formed receive frame and decoding returns `(payload, b'')`
with empty leftover. -/
theorem C1_frame_roundtrip :
    (∀ opcode value : List Nat,
      gm65_parse_rx (gm65_create_tx opcode value) = (none, []) ∧
      m3yw_parse_rx (m3yw_create_tx opcode value) = (none, [])) ∧
    (∀ payload : List Nat, payload.length < 256 →
      gm65_parse_rx (gm65_rx_frame payload) = (some payload, [])) ∧
    (∀ payload : List Nat, payload.length < 65536 →
      m3yw_parse_rx (m3yw_rx_frame payload) = (some payload, [])) :=
  ⟨fun opcode value => ⟨gm65_parse_of_create_tx opcode value,
      m3yw_parse_of_create_tx opcode value⟩,
   gm65_parse_of_rx_frame, m3yw_parse_of_rx_frame⟩

/-- C1 witness at concrete payloads. -/
theorem C1_witness :
    gm65_parse_rx (gm65_rx_frame [0x87]) = (some [0x87], []) ∧
    m3yw_parse_rx (m3yw_rx_frame [0x4f, 0x4b]) = (some [0x4f, 0x4b], []) :=
  ⟨C1_frame_roundtrip.2.1 [0x87] (by decide),
   C1_frame_roundtrip.2.2 [0x4f, 0x4b] (by decide)⟩

/-- C4 counterexample: the claim says every value ≥ 12.7 s is rejected, but
the code tests `value > 12.7`, so 12.7 itself is accepted and encoded (as
round(12.7 × 10) = 127 with bit 7 set, i.e. byte FF); moreover a negative
value such as -1 is not rejected by the domain check yet is not encoded
either — its `to_bytes(1)` conversion fails. -/
theorem C4_counterexample :
    gm65_cmd_set_same_barcode_delay (127/10)
      = Except.ok (gm65_create_tx gm65_delay_opcode [0xff]) ∧
    gm65_cmd_set_same_barcode_delay (-1) = Except.error PyExc.overflowError := by
  constructor
  · unfold gm65_cmd_set_same_barcode_delay
    rw [if_neg (lt_irrefl _)]
    have h10 : (127/10 : ℚ) * 10 = ((127 : ℤ) : ℚ) := by norm_num
    rw [h10, pyRound_intCast, if_pos (by omega)]
    have hsb : set_bit (Int.toNat 127) 7 = 0xff := by decide
    rw [hsb]
  · unfold gm65_cmd_set_same_barcode_delay
    have hpr : pyRound ((-1 : ℚ) * 10) = -10 := by
      have hc : ((-1 : ℚ) * 10) = ((-10 : ℤ) : ℚ) := by norm_num
      rw [hc, pyRound_intCast]
    rw [if_neg (by norm_num), if_neg (by rw [hpr]; omega)]

/-- C4 (amended): the GM65 same-barcode-delay command rejects every value
strictly greater than 12.7 s with a `ValueError` raised before any transport
write (the model returns the would-be frame only on success), 12.7 itself
being accepted; and every accepted value in [0, 12.7] is encoded as the
single byte round(value × 10) with bit 7 set as the enable flag. -/
theorem C4_same_barcode_delay (v : ℚ) :
    (v > 127/10 → gm65_cmd_set_same_barcode_delay v = Except.error PyExc.valueError) ∧
    (0 ≤ v → v ≤ 127/10 →
      gm65_cmd_set_same_barcode_delay v
        = Except.ok (gm65_create_tx gm65_delay_opcode
            [set_bit (pyRound (v * 10)).toNat 7]) ∧
      (set_bit (pyRound (v * 10)).toNat 7).testBit 7 = true) := by
  constructor
  · intro hv
    unfold gm65_cmd_set_same_barcode_delay
    rw [if_pos hv]
  · intro h0 h127
    have hnn : 0 ≤ pyRound (v * 10) := pyRound_nonneg (mul_nonneg h0 (by norm_num))
    have hle : pyRound (v * 10) ≤ 127 := pyRound_le (by push_cast; linarith)
    constructor
    · unfold gm65_cmd_set_same_barcode_delay
      rw [if_neg (not_lt.mpr h127), if_pos ⟨hnn, by omega⟩]
    · rw [set_bit_testBit]
      simp

/-- C4 witness at 13 s (rejected) and 5 s (accepted). -/
theorem C4_witness :
    gm65_cmd_set_same_barcode_delay 13 = Except.error PyExc.valueError ∧
    gm65_cmd_set_same_barcode_delay 5
      = Except.ok (gm65_create_tx gm65_delay_opcode
          [set_bit (pyRound (5 * 10 : ℚ)).toNat 7]) :=
  ⟨(C4_same_barcode_delay 13).1 (by norm_num),
   ((C4_same_barcode_delay 5).2 (by norm_num) (by norm_num)).1⟩

/-- C9: for any fetched settings byte `s`, `cmd_set_illumination(1)` writes
back `s` with bits 2 and 3 both set and every other bit unchanged, and
`cmd_set_illumination(-1)` writes back `s` with bits 2 and 3 both cleared
and every other bit unchanged; the written `cmd_set_settings` frame carries
exactly that byte as its argument. -/
theorem C9_illumination_bits (s i : Nat) :
    ((gm65_illumination_settings s 1).testBit 2 = true ∧
     (gm65_illumination_settings s 1).testBit 3 = true ∧
     (i ≠ 2 → i ≠ 3 → (gm65_illumination_settings s 1).testBit i = s.testBit i)) ∧
    ((gm65_illumination_settings s (-1)).testBit 2 = false ∧
     (gm65_illumination_settings s (-1)).testBit 3 = false ∧
     (i ≠ 2 → i ≠ 3 → (gm65_illumination_settings s (-1)).testBit i = s.testBit i)) ∧
    gm65_cmd_set_illumination_tx s 1
      = gm65_create_tx gm65_settings_opcode [gm65_illumination_settings s 1] := by
  have h1 : gm65_illumination_settings s 1 = set_bit (set_bit s 3) 2 := by
    unfold gm65_illumination_settings
    rw [if_neg (by norm_num), if_neg (by norm_num)]
  have hm1 : gm65_illumination_settings s (-1) = clear_bit (clear_bit s 3) 2 := by
    unfold gm65_illumination_settings
    rw [if_pos (by norm_num)]
  refine ⟨⟨?_, ?_, ?_⟩, ⟨?_, ?_, ?_⟩, rfl⟩
  · rw [h1, set_bit_testBit]
    simp
  · rw [h1, set_bit_testBit, set_bit_testBit]
    simp
  · intro h2 h3
    rw [h1, set_bit_testBit, set_bit_testBit]
    simp [Ne.symm h2, Ne.symm h3]
  · rw [hm1, clear_bit_testBit]
    simp
  · rw [hm1, clear_bit_testBit, clear_bit_testBit]
    simp
  · intro h2 h3
    rw [hm1, clear_bit_testBit, clear_bit_testBit]
    simp [Ne.symm h2, Ne.symm h3]

/-- C9 witness at settings byte A5. -/
theorem C9_witness :
    (gm65_illumination_settings 0xa5 1).testBit 0 = Nat.testBit 0xa5 0 ∧
    (gm65_illumination_settings 0xa5 (-1)).testBit 6 = Nat.testBit 0xa5 6 :=
  ⟨(C9_illumination_bits 0xa5 0).1.2.2 (by decide) (by decide),
   (C9_illumination_bits 0xa5 6).2.1.2.2 (by decide) (by decide)⟩

/-- C7 counterexample: `find_baudrate` requires a truthy reply (`if reply:`),
so a rate whose probe decodes validly to an empty payload is skipped.  With a
transport answering a valid empty-payload GM65 frame at 9600 and a valid
one-byte frame at 14400, the code returns 14400, while the claim's
"first rate whose probe yields a valid decode" is 9600. -/
theorem C7_counterexample :
    find_baudrate detection_cx_resp Dialect.gm65 = some 14400 ∧
    find_baudrate_claimed detection_cx_resp Dialect.gm65 = some 9600 := by
  constructor
  · decide
  · decide

/-- C7 (amended): `detect_scanner` fails with the no-device-found error
exactly when no dialect's probe succeeds at any listed rate; and when it
returns a dialect and rate, the probe succeeded there, every earlier rate in
the fixed list failed for that dialect, and M3Y-W is only returned after
GM65 failed at every rate.  A probe succeeds when the decoded
get-software-version reply is truthy, i.e. a present, nonempty payload
(a valid decode with empty payload is treated as failure). -/
theorem C7_detection (resp : Nat → List Nat → List Nat) :
    (detect_scanner resp = Except.error () ↔
      ∀ d : Dialect, ∀ b ∈ common_baud_rates, probe_ok resp d b = false) ∧
    (∀ d b, detect_scanner resp = Except.ok (d, b) →
      probe_ok resp d b = true ∧
      (∃ pre post, common_baud_rates = pre ++ b :: post ∧
        ∀ b2 ∈ pre, probe_ok resp d b2 = false) ∧
      (d = Dialect.m3yw →
        ∀ b2 ∈ common_baud_rates, probe_ok resp Dialect.gm65 b2 = false)) := by
  constructor
  · constructor
    · intro herr d b hb
      unfold detect_scanner at herr
      cases hg : find_baudrate resp Dialect.gm65 with
      | some bg =>
        rw [hg] at herr
        simp at herr
      | none =>
        cases hm : find_baudrate resp Dialect.m3yw with
        | some bm =>
          rw [hg, hm] at herr
          simp at herr
        | none =>
          unfold find_baudrate at hg hm
          cases d with
          | gm65 => simpa using List.find?_eq_none.mp hg b hb
          | m3yw => simpa using List.find?_eq_none.mp hm b hb
    · intro hall
      unfold detect_scanner
      have hg : find_baudrate resp Dialect.gm65 = none := by
        unfold find_baudrate
        exact List.find?_eq_none.mpr (fun b hb => by simp [hall Dialect.gm65 b hb])
      have hm : find_baudrate resp Dialect.m3yw = none := by
        unfold find_baudrate
        exact List.find?_eq_none.mpr (fun b hb => by simp [hall Dialect.m3yw b hb])
      rw [hg, hm]
  · intro d b hok
    unfold detect_scanner at hok
    cases hg : find_baudrate resp Dialect.gm65 with
    | some bg =>
      rw [hg] at hok
      simp only [Except.ok.injEq, Prod.mk.injEq] at hok
      obtain ⟨hd, hb⟩ := hok
      subst hd
      subst hb
      unfold find_baudrate at hg
      obtain ⟨hp, pre, post, hsplit, hpre⟩ := List.find?_eq_some.mp hg
      refine ⟨hp, ⟨pre, post, hsplit, fun b2 hb2 => by simpa using hpre b2 hb2⟩,
        fun hdm => Dialect.noConfusion hdm⟩
    | none =>
      cases hm : find_baudrate resp Dialect.m3yw with
      | some bm =>
        rw [hg, hm] at hok
        simp only [Except.ok.injEq, Prod.mk.injEq] at hok
        obtain ⟨hd, hb⟩ := hok
        subst hd
        subst hb
        unfold find_baudrate at hg hm
        obtain ⟨hp, pre, post, hsplit, hpre⟩ := List.find?_eq_some.mp hm
        refine ⟨hp, ⟨pre, post, hsplit, fun b2 hb2 => by simpa using hpre b2 hb2⟩,
          fun _ b2 hb2 => by simpa using List.find?_eq_none.mp hg b2 hb2⟩
      | none =>
        rw [hg, hm] at hok
        simp at hok

/-- C7 witness: a transport answering only at 19200 for GM65, run through the
detection theorem. -/
theorem C7_witness :
    probe_ok detection_witness_resp Dialect.gm65 19200 = true :=
  ((C7_detection detection_witness_resp).2 Dialect.gm65 19200 rfl).1
